import Mathlib

/-!
Verification of the mev-templates Rust engine against its natural-language
specification.  Each Rust function relevant to the claims is shallowly
embedded as an executable Lean definition: `U256` values become `Nat`
(Rust `U256` arithmetic panics on overflow/underflow, so on the panic-free
domains used here plain `Nat` arithmetic agrees), signed `i128`/`i64`
become `Int`, fallible computations become `Option`/`Except`.
-/

/-! ## UniswapV2Simulator (src/rust/src/simulator.rs)

`get_amount_out` embeds `UniswapV2Simulator::get_amount_out` line by line:
zero-reserve check, 30% impact guard (`amount_in > reserve_in * 30 / 100`
in integer arithmetic), `fee := fee / 100`,
`amount_in_with_fee := amount_in * (1000 - fee)`,
`numerator / denominator` via `checked_div` (mirrored by the
`denominator = 0` test), and the minimum-output check
`min_out := amount_out * 99 / 100` which rejects when it rounds to zero. -/

def get_amount_out (amount_in reserve_in reserve_out fee : Nat) : Option Nat :=
  if reserve_in = 0 || reserve_out = 0 then none
  else if reserve_in * 30 / 100 < amount_in then none
  else
    let fee' := fee / 100
    let amount_in_with_fee := amount_in * (1000 - fee')
    let numerator := amount_in_with_fee * reserve_out
    let denominator := reserve_in * 1000 + amount_in_with_fee
    if denominator = 0 then none
    else
      let amount_out := numerator / denominator
      let min_out := amount_out * 99 / 100
      if min_out = 0 then none
      else some amount_out

/-- The closed-form value computed by the Rust code on the success path:
`amount_in_with_fee = amount_in * (1000 - fee / 100)` and
`out = amount_in_with_fee * reserve_out / (reserve_in * 1000 + amount_in_with_fee)`. -/
def v2_formula_out (amount_in reserve_in reserve_out fee : Nat) : Nat :=
  let amount_in_with_fee := amount_in * (1000 - fee / 100)
  amount_in_with_fee * reserve_out / (reserve_in * 1000 + amount_in_with_fee)

/-- Modelled from the spec: the specification's canonical constant-product
formula with the fee in basis points,
`amount_in_with_fee = amount_in * (10000 - fee_bps)` and
`out = amount_in_with_fee * reserve_out / (reserve_in * 10000 + amount_in_with_fee)`.
Used only to compare the source's arithmetic against the spec's words. -/
def spec_v2_amount_out (amount_in reserve_in reserve_out fee_bps : Nat) : Nat :=
  let amount_in_with_fee := amount_in * (10000 - fee_bps)
  amount_in_with_fee * reserve_out / (reserve_in * 10000 + amount_in_with_fee)

/-- Claim C1 (counterexample): at `amount_in = 100`, `reserve_in = 1000`,
`reserve_out = 1000000`, `fee_bps = 30` — reserves non-zero and the impact
guard satisfied — the code returns 90909 while the spec's basis-point
constant-product formula yields 90661, so the claimed equality fails. -/
theorem c1_counterexample :
    get_amount_out 100 1000 1000000 30 = some 90909 ∧
    spec_v2_amount_out 100 1000 1000000 30 = 90661 ∧
    (90909 : Nat) ≠ 90661 := by
  refine ⟨by decide, by decide, by decide⟩

/-- Claim C1 (amended): for non-zero reserves, `amount_in` within the
impact guard, and an output clearing the minimum-output check, the value
returned by `get_amount_out` equals the code's fee formula
`amount_in_with_fee = amount_in * (1000 - fee_bps / 100)`,
`out = amount_in_with_fee * reserve_out / (reserve_in * 1000 + amount_in_with_fee)`
(the code divides the basis-point fee by 100 and works on a per-mille
scale, rather than applying `(10000 - fee_bps) / 10000`). -/
theorem get_amount_out_eq_code_formula (amount_in reserve_in reserve_out fee : Nat)
    (h_in : reserve_in ≠ 0) (h_out : reserve_out ≠ 0)
    (h_guard : amount_in ≤ reserve_in * 30 / 100)
    (h_min : 1 < v2_formula_out amount_in reserve_in reserve_out fee) :
    get_amount_out amount_in reserve_in reserve_out fee =
      some (v2_formula_out amount_in reserve_in reserve_out fee) := by
  have hpos : 0 < reserve_in := Nat.pos_of_ne_zero h_in
  have hden : reserve_in * 1000 + amount_in * (1000 - fee / 100) ≠ 0 := by
    have h1 : 1000 ≤ reserve_in * 1000 := by
      calc 1000 = 1 * 1000 := by omega
        _ ≤ reserve_in * 1000 := Nat.mul_le_mul_right 1000 hpos
    omega
  have hout2 : 2 ≤ v2_formula_out amount_in reserve_in reserve_out fee := h_min
  have hmin_ne : v2_formula_out amount_in reserve_in reserve_out fee * 99 / 100 ≠ 0 := by
    intro h0
    have h99 : v2_formula_out amount_in reserve_in reserve_out fee * 99 < 100 :=
      (Nat.div_eq_zero_iff (by omega)).mp h0
    omega
  unfold get_amount_out
  rw [if_neg (by simp [h_in, h_out]), if_neg (by omega)]
  simp only []
  rw [if_neg hden, if_neg (by
    show ¬ (amount_in * (1000 - fee / 100) * reserve_out /
      (reserve_in * 1000 + amount_in * (1000 - fee / 100)) * 99 / 100 = 0)
    exact hmin_ne)]
  rfl

/-- Claim C1 (witness for the amended theorem): concrete run at
`(100, 1000, 1000000, 30)`. -/
theorem get_amount_out_eq_code_formula_witness :
    get_amount_out 100 1000 1000000 30 =
      some (v2_formula_out 100 1000 1000000 30) :=
  get_amount_out_eq_code_formula 100 1000 1000000 30
    (by decide) (by decide) (by decide) (by decide)

/-- Claim C4: `get_amount_out` returns `none` whenever either reserve is
zero, and whenever `amount_in` exceeds 30% of `reserve_in`
(`amount_in > 0.30 * reserve_in`, stated as `3 * reserve_in < 10 * amount_in`;
for natural numbers this is exactly the code's
`amount_in > reserve_in * 30 / 100` test). -/
theorem get_amount_out_guard (amount_in reserve_in reserve_out fee : Nat)
    (h : reserve_in = 0 ∨ reserve_out = 0 ∨ 3 * reserve_in < 10 * amount_in) :
    get_amount_out amount_in reserve_in reserve_out fee = none := by
  unfold get_amount_out
  rcases h with h | h | h
  · rw [if_pos (by simp [h])]
  · rw [if_pos (by simp [h])]
  · rcases Decidable.em (reserve_in = 0 || reserve_out = 0) with hz | hz
    · rw [if_pos hz]
    · rw [if_neg hz, if_pos (by
        rw [Nat.div_lt_iff_lt_mul (by omega : (0:Nat) < 100)]
        omega)]

/-- Claim C4 (witness): a trade of 400 against a reserve of 1000 trips the
impact guard. -/
theorem get_amount_out_guard_witness :
    (1000 = 0 ∨ 1000 = 0 ∨ 3 * 1000 < 10 * 400) ∧
    get_amount_out 400 1000 1000 30 = none :=
  ⟨by decide, get_amount_out_guard 400 1000 1000 30 (by decide)⟩

/-- Claim C10: whenever `get_amount_out` returns a value `out`, the
minimum-output check `amount_out * 99 / 100 ≠ 0` has passed, which forces
`out > 1`; outputs 0 and 1 are turned into `none`. -/
theorem get_amount_out_min_output (amount_in reserve_in reserve_out fee out : Nat)
    (h : get_amount_out amount_in reserve_in reserve_out fee = some out) : 1 < out := by
  unfold get_amount_out at h
  dsimp only at h
  split at h
  · exact absurd h (by simp)
  · split at h
    · exact absurd h (by simp)
    · split at h
      · exact absurd h (by simp)
      · split at h
        · exact absurd h (by simp)
        · rename_i hcond
          have hout : amount_in * (1000 - fee / 100) * reserve_out /
              (reserve_in * 1000 + amount_in * (1000 - fee / 100)) = out :=
            Option.some.inj h
          by_contra hle
          have h1 : out ≤ 1 := by omega
          apply hcond
          rw [hout]
          exact Nat.div_eq_of_lt (by omega)

/-- Claim C10 (witness): concrete successful run, output 90909 > 1. -/
theorem get_amount_out_min_output_witness :
    get_amount_out 100 1000 1000000 30 = some 90909 ∧ 1 < 90909 :=
  ⟨by decide, get_amount_out_min_output 100 1000 1000000 30 90909 (by decide)⟩

/-! ## TokenManager (src/rust/src/security/token/mod.rs)

`TokenManager::new` sets `min_holder_count = 100` and
`min_volume_24h = 1000 * 10^18` (the source comment reads `// 1000 USD`).
`validate_token` embeds the pure decision pipeline of
`TokenManager::validate_token` applied to the fetched volume, holder,
supply and contract data.  The source's `f64` concentration test
`top_holders_balance / total_supply > 0.5` is embedded as the exact
comparison `2 * top_holders_balance > total_supply`. -/

structure TokenManager where
  min_holder_count : Nat
  min_volume_24h : Nat

def TokenManager.new : TokenManager :=
  { min_holder_count := 100, min_volume_24h := 1000 * 10^18 }

structure TokenValidation where
  is_valid : Bool
  reason : String
  error : Option String

def validate_token (tm : TokenManager) (volume_24h unique_holders : Nat)
    (top_holders : List (Nat × Nat)) (total_supply : Nat)
    (is_verified : Bool) : TokenValidation :=
  if volume_24h < tm.min_volume_24h then
    ⟨false, ("Insufficient 24h volume"), none⟩
  else if unique_holders < tm.min_holder_count then
    ⟨false, ("Insufficient unique holders"), none⟩
  else
    let top_holders_balance := (top_holders.map (fun p => p.2)).sum
    if 2 * top_holders_balance > total_supply then
      ⟨false, ("High holder concentration"), none⟩
    else if !is_verified then
      ⟨false, ("Contract not verified"), none⟩
    else
      ⟨true, ("All checks passed"), none⟩

/-- Claim C3 (counterexample): a token with 24h volume of 50 000 USD
(`50000 * 10^18`, well below the claimed 100 000 USD floor), 150 holders,
10% top-holder concentration and a verified contract is reported valid:
the code's volume floor is `1000 * 10^18` (1000 USD), not 100 000 USD. -/
theorem c3_counterexample :
    (validate_token TokenManager.new (50000 * 10^18) 150 [(1, 10)] 100 true).is_valid
      = true ∧
    (50000 * 10^18 : Nat) < 100000 * 10^18 := by
  refine ⟨by decide, by decide⟩

/-- Claim C3 (amended): a token is reported valid only if its 24h volume is
at least 1000 USD (`1000 * 10^18` in 18-decimal units); equivalently,
every token below that floor is reported not valid. -/
theorem validate_token_volume_floor (volume_24h unique_holders : Nat)
    (top_holders : List (Nat × Nat)) (total_supply : Nat) (is_verified : Bool)
    (h : (validate_token TokenManager.new volume_24h unique_holders
        top_holders total_supply is_verified).is_valid = true) :
    1000 * 10^18 ≤ volume_24h := by
  unfold validate_token TokenManager.new at h
  by_cases hv : volume_24h < 1000 * 10^18
  · rw [if_pos (by exact hv)] at h
    exact absurd h (by decide)
  · omega

/-- Claim C3 (witness for the amended theorem): a token exactly at the
1000 USD floor which passes every other check is reported valid. -/
theorem validate_token_volume_floor_witness :
    (validate_token TokenManager.new (1000 * 10^18) 100 [(1, 0)] 0 true).is_valid
      = true ∧
    (1000 * 10^18 : Nat) ≤ 1000 * 10^18 :=
  ⟨by decide, validate_token_volume_floor (1000 * 10^18) 100 [(1, 0)] 0 true (by decide)⟩

/-! ## Configuration validators (src/rust/src/config/mod.rs)

Strings are embedded as `List Char`; `str_starts_with` mirrors Rust's
`str::starts_with`.  `validate_rpc_url` returns `true` for `Ok(())` and
`false` for the `invalid_rpc_url` error; the source tests exactly the
three prefixes `http://`, `https://` and `ws://`. -/

def str_starts_with (s p : List Char) : Bool :=
  match s, p with
  | _, [] => true
  | [], _ :: _ => false
  | c :: s', q :: ps => c == q && str_starts_with s' ps

def validate_rpc_url (url : List Char) : Bool :=
  if !(str_starts_with url ("http://").toList) &&
      !(str_starts_with url ("https://").toList) &&
      !(str_starts_with url ("ws://").toList) then
    false
  else
    true

/-- Claim C8 (counterexample): the URL `wss://node.example` begins with
`wss://` yet is rejected — a `wss://` string does not begin with `ws://`
(its third character is `s`, not `:`), and the code never tests the
`wss://` prefix. -/
theorem c8_counterexample :
    str_starts_with ("wss://node.example").toList ("wss://").toList = true ∧
    validate_rpc_url ("wss://node.example").toList = false := by
  refine ⟨by decide, by decide⟩

/-- Claim C8 (amended): `validate_rpc_url` accepts a URL if and only if it
begins with one of the three prefixes `http://`, `https://` or `ws://`;
`wss://` is not among the accepted prefixes. -/
theorem validate_rpc_url_iff (url : List Char) :
    validate_rpc_url url = true ↔
      (str_starts_with url ("http://").toList = true ∨
       str_starts_with url ("https://").toList = true ∨
       str_starts_with url ("ws://").toList = true) := by
  unfold validate_rpc_url
  cases ha : str_starts_with url ("http://").toList <;>
    cases hb : str_starts_with url ("https://").toList <;>
      cases hc : str_starts_with url ("ws://").toList <;>
        simp

/-! ## MEVProtection (src/rust/src/flashbot/mev_protection.rs)

`MEVProtection::new` sets `min_block_delay = 1`.  `calculate_block_delay`
starts from `min_block_delay` and adds 1 when the pending-transaction
count exceeds 1000, 1 when gas is volatile, and 2 when a similar pending
transaction exists. -/

def mev_min_block_delay : Nat := 1

def calculate_block_delay (min_block_delay pending_count : Nat)
    (gas_volatile has_similar_pending : Bool) : Nat :=
  let delay := min_block_delay
  let delay := if 1000 < pending_count then delay + 1 else delay
  let delay := if gas_volatile then delay + 1 else delay
  let delay := if has_similar_pending then delay + 2 else delay
  delay

/-- Claim C9 (counterexample): with a congested mempool (2000 pending),
volatile gas and a similar pending transaction, the delay is
`1 + 1 + 1 + 2 = 5`, which is not in the claimed set `{1, 2, 3}`. -/
theorem c9_counterexample :
    calculate_block_delay mev_min_block_delay 2000 true true = 5 ∧
    ¬(calculate_block_delay mev_min_block_delay 2000 true true = 1 ∨
      calculate_block_delay mev_min_block_delay 2000 true true = 2 ∨
      calculate_block_delay mev_min_block_delay 2000 true true = 3) := by
  refine ⟨by decide, by decide⟩

/-- Claim C9 (amended): for every congestion condition the block delay
computed from the constructor's `min_block_delay = 1` is a member of
`{1, 2, 3, 4, 5}`. -/
theorem calculate_block_delay_range (pending_count : Nat)
    (gas_volatile has_similar_pending : Bool) :
    calculate_block_delay mev_min_block_delay pending_count gas_volatile
        has_similar_pending = 1 ∨
    calculate_block_delay mev_min_block_delay pending_count gas_volatile
        has_similar_pending = 2 ∨
    calculate_block_delay mev_min_block_delay pending_count gas_volatile
        has_similar_pending = 3 ∨
    calculate_block_delay mev_min_block_delay pending_count gas_volatile
        has_similar_pending = 4 ∨
    calculate_block_delay mev_min_block_delay pending_count gas_volatile
        has_similar_pending = 5 := by
  unfold calculate_block_delay mev_min_block_delay
  dsimp only
  split <;> split <;> split <;> omega

/-! ## PathFinder (src/rust/src/routing/mod.rs)

`Path` carries the fields of the Rust struct (addresses as `Nat`).
`filter_profitable_paths` embeds `PathFinder::filter_profitable_paths`:
keep the paths with `expected_profit > gas_estimate` and
`impact_score <= max_impact`, then sort by the integer ratio
`expected_profit / gas_estimate` descending.  Rust's stable `sort_by`
with comparator `ratio_b.cmp(&ratio_a)` is modelled by the stable
`List.insertionSort` under the relation `ratio b ≤ ratio a`.
`PathFinder::new` sets `max_impact = MAX_IMPACT_THRESHOLD = 300`.
(The `Routing` namespace keeps the Rust names from colliding with
Mathlib's `Path`.) -/

namespace Routing

structure Path where
  pools : List Nat
  tokens : List Nat
  expected_profit : Nat
  gas_estimate : Nat
  impact_score : Nat
deriving DecidableEq

def MAX_IMPACT_THRESHOLD : Nat := 300

def path_ratio (p : Path) : Nat := p.expected_profit / p.gas_estimate

def filter_profitable_paths (max_impact : Nat) (paths : List Path) : List Path :=
  let profitable := paths.filter (fun p =>
    decide (p.gas_estimate < p.expected_profit) && decide (p.impact_score ≤ max_impact))
  List.insertionSort (fun a b => path_ratio b ≤ path_ratio a) profitable

/-- Claim C7: with the constructor's `max_impact = 300`, and on inputs
whose gas estimates are non-zero (the Rust ratio division would panic on
zero), the returned list contains exactly the input paths with
`expected_profit > gas_estimate` and `impact_score ≤ 300`, and is sorted
descending by the integer profit/gas ratio `expected_profit / gas_estimate`. -/
theorem filter_profitable_paths_spec (paths : List Path)
    (hgas : ∀ p ∈ paths, p.gas_estimate ≠ 0) :
    (∀ p, p ∈ filter_profitable_paths MAX_IMPACT_THRESHOLD paths ↔
      (p ∈ paths ∧ p.gas_estimate < p.expected_profit ∧ p.impact_score ≤ 300)) ∧
    List.Pairwise (fun a b => path_ratio b ≤ path_ratio a)
      (filter_profitable_paths MAX_IMPACT_THRESHOLD paths) := by
  constructor
  · intro p
    unfold filter_profitable_paths
    rw [(List.perm_insertionSort _ _).mem_iff, List.mem_filter]
    simp [MAX_IMPACT_THRESHOLD]
  · unfold filter_profitable_paths
    haveI : IsTotal Path (fun a b => path_ratio b ≤ path_ratio a) :=
      ⟨fun a b => le_total _ _⟩
    haveI : IsTrans Path (fun a b => path_ratio b ≤ path_ratio a) :=
      ⟨fun a b c h1 h2 => le_trans h2 h1⟩
    exact List.sorted_insertionSort _ _

def examplePathA : Path := ⟨[3], [1, 4, 1], 10, 2, 100⟩

def examplePaths : List Path :=
  [⟨[1], [1, 2, 1], 9, 3, 200⟩, ⟨[2], [1, 3, 1], 1, 5, 100⟩,
   examplePathA, ⟨[4], [1, 5, 1], 50, 4, 400⟩]

/-- Claim C7 (witness): concrete run over four candidate paths, one
unprofitable and one above the impact cap. -/
theorem filter_profitable_paths_spec_witness :
    (examplePathA ∈ filter_profitable_paths MAX_IMPACT_THRESHOLD examplePaths ↔
      (examplePathA ∈ examplePaths ∧
        examplePathA.gas_estimate < examplePathA.expected_profit ∧
        examplePathA.impact_score ≤ 300)) ∧
    List.Pairwise (fun a b => path_ratio b ≤ path_ratio a)
      (filter_profitable_paths MAX_IMPACT_THRESHOLD examplePaths) :=
  ⟨(filter_profitable_paths_spec examplePaths (by decide)).1 examplePathA,
   (filter_profitable_paths_spec examplePaths (by decide)).2⟩

end Routing

/-! ## CrossChainFlashloan validators (src/rust/src/strategies/cross_chain_flashloan.rs)

`ExecutionStep` and `FlashloanStrategy` embed the types from
src/rust/src/strategies/types.rs (addresses and chain ids as `Nat`;
`params`, `bridge_data`, `dex` and interest-rate-mode payloads are not
inspected by the validators modelled here and are omitted, as is the
`f64` field `max_slippage`).  The `HashMap<(u64, Address), _>` balance
and borrow maps are embedded as association lists. -/

inductive ExecutionStep where
  | flashLoan (chain_id token amount : Nat)
  | bridge (from_chain to_chain token amount : Nat)
  | swap (chain_id token_in token_out amount_in min_amount_out : Nat)
  | aaveSupply (chain_id token amount : Nat)
  | aaveBorrow (chain_id token amount : Nat)
  | aaveRepay (chain_id token amount : Nat)
deriving DecidableEq

structure FlashloanStrategy where
  source_chain : Nat
  target_chain : Nat
  flash_token : Nat
  flash_amount : Nat
  min_profit : Nat
  execution_steps : List ExecutionStep
deriving DecidableEq

def bump_balance (m : List ((Nat × Nat) × Int)) (key : Nat × Nat) (delta : Int) :
    List ((Nat × Nat) × Int) :=
  match m with
  | [] => [(key, delta)]
  | (k, v) :: rest =>
    if k = key then (k, v + delta) :: rest else (k, v) :: bump_balance rest key delta

/-- One iteration of the balance-simulation loop of
`CrossChainFlashloan::validate_amounts`: FlashLoan and Borrow add,
Bridge subtracts on the source chain and adds on the target chain,
Swap subtracts `amount_in` and adds `min_amount_out`, Supply and Repay
subtract. -/
def apply_step (m : List ((Nat × Nat) × Int)) : ExecutionStep → List ((Nat × Nat) × Int)
  | .flashLoan chain_id token amount => bump_balance m (chain_id, token) (amount : Int)
  | .bridge from_chain to_chain token amount =>
    bump_balance (bump_balance m (from_chain, token) (-(amount : Int))) (to_chain, token) (amount : Int)
  | .swap chain_id token_in token_out amount_in min_amount_out =>
    bump_balance (bump_balance m (chain_id, token_in) (-(amount_in : Int)))
      (chain_id, token_out) (min_amount_out : Int)
  | .aaveSupply chain_id token amount => bump_balance m (chain_id, token) (-(amount : Int))
  | .aaveBorrow chain_id token amount => bump_balance m (chain_id, token) (amount : Int)
  | .aaveRepay chain_id token amount => bump_balance m (chain_id, token) (-(amount : Int))

def running_balances (steps : List ExecutionStep) : List ((Nat × Nat) × Int) :=
  steps.foldl apply_step []

/-- The running balance of `(chain, token)` at the boundary after the
first `k` steps (0 for keys never touched). -/
def balance_at (steps : List ExecutionStep) (k : Nat) (key : Nat × Nat) : Int :=
  ((running_balances (steps.take k)).lookup key).getD 0

/-- `CrossChainFlashloan::validate_amounts`, parameterised by the
externally fetched `liquidity_index` of the flash token's reserve:
reject a zero flash amount, reject `flash_amount >= liquidity_index`,
accumulate the balance map over all steps, and reject if any FINAL
balance is negative. -/
def validate_amounts (liquidity : Nat) (s : FlashloanStrategy) : Except String Unit :=
  if s.flash_amount = 0 then .error ("Flash amount cannot be zero")
  else if liquidity ≤ s.flash_amount then .error ("Flash amount exceeds available liquidity")
  else
    match (running_balances s.execution_steps).find? (fun kv => kv.2 < 0) with
    | some _ => .error ("Negative balance")
    | none => .ok ()

/-- Helper: a successful lookup in an association list locates its entry. -/
theorem lookup_mem_assoc {β : Type} (l : List ((Nat × Nat) × β)) (k : Nat × Nat) (v : β)
    (h : l.lookup k = some v) : (k, v) ∈ l := by
  induction l with
  | nil => simp [List.lookup] at h
  | cons a rest ih =>
    obtain ⟨ka, vb⟩ := a
    rw [List.lookup] at h
    cases hk : k == ka with
    | true =>
      rw [hk] at h
      simp only [] at h
      have hk' : k = ka := by simpa using hk
      have hv : vb = v := Option.some.inj h
      rw [hk', ← hv]
      exact List.mem_cons_self _ _
    | false =>
      rw [hk] at h
      simp only [] at h
      exact List.mem_cons_of_mem _ (ih h)

def strategyC2 : FlashloanStrategy :=
  { source_chain := 1, target_chain := 1, flash_token := 100, flash_amount := 50,
    min_profit := 0,
    execution_steps := [
      .flashLoan 1 100 50,
      .swap 1 200 100 30 30,
      .aaveBorrow 1 200 30,
      .aaveBorrow 1 100 10,
      .aaveRepay 1 100 10] }

/-- Claim C2 (amended): for any strategy accepted by `validate_amounts`,
every `(chain, token)` balance in the running balance map is non-negative
at the FINAL step boundary — the code accumulates all steps first and only
then checks the map, so intermediate boundaries are not constrained. -/
theorem validate_amounts_final_balances (liquidity : Nat) (s : FlashloanStrategy)
    (h : validate_amounts liquidity s = .ok ()) :
    ∀ key, 0 ≤ balance_at s.execution_steps s.execution_steps.length key := by
  intro key
  unfold validate_amounts at h
  split at h
  · exact Except.noConfusion h
  · split at h
    · exact Except.noConfusion h
    · split at h
      · exact Except.noConfusion h
      · rename_i hfind
        have hall := List.find?_eq_none.mp hfind
        unfold balance_at
        rw [List.take_length]
        cases hlk : (running_balances s.execution_steps).lookup key with
        | none => simp
        | some v =>
          have hmem : (key, v) ∈ running_balances s.execution_steps :=
            lookup_mem_assoc _ _ _ hlk
          have := hall _ hmem
          simp only [decide_eq_true_eq] at this
          simp only [Option.getD_some]
          omega

/-- Claim C2 (witness for the amended theorem): `strategyC2` is accepted
and its final `(1, 200)` balance is non-negative. -/
theorem validate_amounts_final_balances_witness :
    validate_amounts 1000 strategyC2 = .ok () ∧
    0 ≤ balance_at strategyC2.execution_steps strategyC2.execution_steps.length (1, 200) :=
  ⟨rfl, validate_amounts_final_balances 1000 strategyC2 rfl (1, 200)⟩

/-! ### validate_step_sequence -/

def bump_borrowed (m : List ((Nat × Nat) × Nat)) (key : Nat × Nat) (amt : Nat) :
    List ((Nat × Nat) × Nat) :=
  match m with
  | [] => [(key, amt)]
  | (k, v) :: rest =>
    if k = key then (k, v + amt) :: rest else (k, v) :: bump_borrowed rest key amt

/-- The step-walking loop of `CrossChainFlashloan::validate_step_sequence`:
`current_chain` starts at the source chain and is updated by Bridge steps;
every other step must execute on the current chain; a second FlashLoan is
rejected; Repay steps must not exceed the borrowed amount and set the
`flashloan_repaid` flag when they repay the flash token on the strategy's
source chain; at the end the loop demands that a flashloan was taken and
repaid. -/
def validate_step_sequence_go (flash_token source_chain : Nat) :
    List ExecutionStep → Nat → Bool → Bool → List ((Nat × Nat) × Nat) →
      Except String Unit
  | [], _, has_flashloan, flashloan_repaid, _ =>
    if !has_flashloan then .error ("Strategy must include a flashloan")
    else if !flashloan_repaid then .error ("Flashloan must be repaid")
    else .ok ()
  | step :: rest, current_chain, has_flashloan, flashloan_repaid, borrowed =>
    match step with
    | .flashLoan chain_id _ _ =>
      if has_flashloan then .error ("Multiple flashloans not supported")
      else if chain_id ≠ current_chain then
        .error ("Invalid chain sequence in flash loan step")
      else
        validate_step_sequence_go flash_token source_chain rest current_chain
          true flashloan_repaid borrowed
    | .bridge from_chain to_chain _ _ =>
      if from_chain ≠ current_chain then .error ("Invalid source chain in bridge step")
      else
        validate_step_sequence_go flash_token source_chain rest to_chain
          has_flashloan flashloan_repaid borrowed
    | .aaveBorrow chain_id token amount =>
      if chain_id ≠ current_chain then .error ("Invalid chain sequence in borrow step")
      else
        validate_step_sequence_go flash_token source_chain rest current_chain
          has_flashloan flashloan_repaid (bump_borrowed borrowed (chain_id, token) amount)
    | .aaveRepay chain_id token amount =>
      if chain_id ≠ current_chain then .error ("Invalid chain sequence in repay step")
      else
        match borrowed.lookup (chain_id, token) with
        | none => .error ("Repaying non-borrowed token")
        | some b =>
          if b < amount then .error ("Repay amount exceeds borrowed amount")
          else
            validate_step_sequence_go flash_token source_chain rest current_chain
              has_flashloan
              (flashloan_repaid || (token == flash_token && chain_id == source_chain))
              borrowed
    | .swap chain_id _ _ _ _ =>
      if chain_id ≠ current_chain then .error ("Invalid chain sequence in step")
      else
        validate_step_sequence_go flash_token source_chain rest current_chain
          has_flashloan flashloan_repaid borrowed
    | .aaveSupply chain_id _ _ =>
      if chain_id ≠ current_chain then .error ("Invalid chain sequence in step")
      else
        validate_step_sequence_go flash_token source_chain rest current_chain
          has_flashloan flashloan_repaid borrowed

def validate_step_sequence (s : FlashloanStrategy) : Except String Unit :=
  validate_step_sequence_go s.flash_token s.source_chain s.execution_steps
    s.source_chain false false []

def is_flashloan_step : ExecutionStep → Bool
  | .flashLoan _ _ _ => true
  | _ => false

def is_flash_repay_step (flash_token source_chain : Nat) : ExecutionStep → Bool
  | .aaveRepay chain_id token _ => token == flash_token && chain_id == source_chain
  | _ => false

/-- Invariant of the step-walking loop: a successful run contains exactly
one FlashLoan if none was seen yet (none at all otherwise), and, unless
the repaid flag is already set, some Repay step of the flash token on the
strategy's source chain. -/
theorem validate_step_sequence_go_ok (ft sc : Nat) (steps : List ExecutionStep) :
    ∀ cc hf fr borrowed,
      validate_step_sequence_go ft sc steps cc hf fr borrowed = .ok () →
        (steps.countP is_flashloan_step = if hf then 0 else 1) ∧
        (fr = true ∨ ∃ step ∈ steps, is_flash_repay_step ft sc step = true) := by
  induction steps with
  | nil =>
    intro cc hf fr borrowed h
    rw [validate_step_sequence_go.eq_def] at h
    dsimp only at h
    cases hf with
    | false => exact Except.noConfusion h
    | true =>
      cases fr with
      | false => exact Except.noConfusion h
      | true => exact ⟨by simp, Or.inl rfl⟩
  | cons step rest ih =>
    intro cc hf fr borrowed h
    rw [validate_step_sequence_go.eq_def] at h
    cases step with
    | flashLoan chain_id token amount =>
      dsimp only at h
      cases hf with
      | true => exact Except.noConfusion h
      | false =>
        rw [if_neg (by simp)] at h
        split at h
        · exact Except.noConfusion h
        · have := ih cc true fr borrowed h
          refine ⟨?_, ?_⟩
          · simp [List.countP_cons, is_flashloan_step, this.1]
          · rcases this.2 with hfr | ⟨st, hst, hrep⟩
            · exact Or.inl hfr
            · exact Or.inr ⟨st, List.mem_cons_of_mem _ hst, hrep⟩
    | bridge from_chain to_chain token amount =>
      dsimp only at h
      split at h
      · exact Except.noConfusion h
      · have := ih to_chain hf fr borrowed h
        refine ⟨?_, ?_⟩
        · simp [List.countP_cons, is_flashloan_step, this.1]
        · rcases this.2 with hfr | ⟨st, hst, hrep⟩
          · exact Or.inl hfr
          · exact Or.inr ⟨st, List.mem_cons_of_mem _ hst, hrep⟩
    | swap chain_id token_in token_out amount_in min_amount_out =>
      dsimp only at h
      split at h
      · exact Except.noConfusion h
      · have := ih cc hf fr borrowed h
        refine ⟨?_, ?_⟩
        · simp [List.countP_cons, is_flashloan_step, this.1]
        · rcases this.2 with hfr | ⟨st, hst, hrep⟩
          · exact Or.inl hfr
          · exact Or.inr ⟨st, List.mem_cons_of_mem _ hst, hrep⟩
    | aaveSupply chain_id token amount =>
      dsimp only at h
      split at h
      · exact Except.noConfusion h
      · have := ih cc hf fr borrowed h
        refine ⟨?_, ?_⟩
        · simp [List.countP_cons, is_flashloan_step, this.1]
        · rcases this.2 with hfr | ⟨st, hst, hrep⟩
          · exact Or.inl hfr
          · exact Or.inr ⟨st, List.mem_cons_of_mem _ hst, hrep⟩
    | aaveBorrow chain_id token amount =>
      dsimp only at h
      split at h
      · exact Except.noConfusion h
      · have := ih cc hf fr (bump_borrowed borrowed (chain_id, token) amount) h
        refine ⟨?_, ?_⟩
        · simp [List.countP_cons, is_flashloan_step, this.1]
        · rcases this.2 with hfr | ⟨st, hst, hrep⟩
          · exact Or.inl hfr
          · exact Or.inr ⟨st, List.mem_cons_of_mem _ hst, hrep⟩
    | aaveRepay chain_id token amount =>
      dsimp only at h
      split at h
      · exact Except.noConfusion h
      · split at h
        · exact Except.noConfusion h
        · rename_i b hlk
          split at h
          · exact Except.noConfusion h
          · have := ih cc hf
              (fr || (token == ft && chain_id == sc)) borrowed h
            refine ⟨?_, ?_⟩
            · simp [List.countP_cons, is_flashloan_step, this.1]
            · rcases this.2 with hfr | ⟨st, hst, hrep⟩
              · rcases Bool.or_eq_true_iff.mp hfr with hfr' | hcond
                · exact Or.inl hfr'
                · refine Or.inr ⟨.aaveRepay chain_id token amount, List.mem_cons_self _ _, ?_⟩
                  simp only [is_flash_repay_step]
                  exact hcond
              · exact Or.inr ⟨st, List.mem_cons_of_mem _ hst, hrep⟩

/-- Claim C6: a strategy accepted by `validate_step_sequence` contains
exactly one FlashLoan step and some Repay step of the flash token on the
strategy's source chain; strategies with zero or several flashloans, or
without such a repay, are rejected. -/
theorem validate_step_sequence_unique_flashloan (s : FlashloanStrategy)
    (h : validate_step_sequence s = .ok ()) :
    s.execution_steps.countP is_flashloan_step = 1 ∧
    ∃ step ∈ s.execution_steps,
      is_flash_repay_step s.flash_token s.source_chain step = true := by
  have := validate_step_sequence_go_ok s.flash_token s.source_chain
    s.execution_steps s.source_chain false false [] h
  refine ⟨by simpa using this.1, ?_⟩
  rcases this.2 with hfr | hex
  · exact Bool.noConfusion hfr
  · exact hex

def strategyC6 : FlashloanStrategy :=
  { source_chain := 1, target_chain := 1, flash_token := 100, flash_amount := 50,
    min_profit := 0,
    execution_steps := [
      .flashLoan 1 100 50,
      .aaveBorrow 1 100 60,
      .aaveRepay 1 100 55] }

/-- Claim C6 (witness): an accepted three-step strategy has one FlashLoan
and a repay of the flash token on the source chain. -/
theorem validate_step_sequence_unique_flashloan_witness :
    strategyC6.execution_steps.countP is_flashloan_step = 1 ∧
    ∃ step ∈ strategyC6.execution_steps,
      is_flash_repay_step strategyC6.flash_token strategyC6.source_chain step = true :=
  validate_step_sequence_unique_flashloan strategyC6 rfl

/-- Claim C2 (counterexample): `strategyC2` is accepted by both
`validate_amounts` and `validate_step_sequence`, yet its running balance
for `(chain 1, token 200)` is −30 at the boundary after step 2 (its Swap
spends token 200 before the later Borrow acquires it): the code only
checks the balances accumulated over ALL steps, not each boundary. -/
theorem c2_counterexample :
    validate_amounts 1000 strategyC2 = .ok () ∧
    validate_step_sequence strategyC2 = .ok () ∧
    balance_at strategyC2.execution_steps 2 (1, 200) < 0 := by
  refine ⟨rfl, rfl, by decide⟩

/-! ## TWAPManager (src/rust/src/security/twap/mod.rs)

`get_v3_twap` embeds the pure decision pipeline of
`TWAPManager::get_v3_twap` applied to the externally observed pool state:
the `slot0` sqrt price, the pool's two tokens, the observation
cardinality, and the `observe` results (`ticks`, `initialized`).  The
`f64` conversion `tick_to_sqrt_price` (`1.0001^tick * 2^96`) is kept
abstract as a parameter `tickToPrice : Int → Nat`; no claim depends on
its values.  `u32_wrapping_sub` is the release-profile wrapping `u32`
subtraction `seconds_ago[i+1] - seconds_ago[i]` (the observation times
decrease, so the Rust subtraction wraps), and `u256_saturating_add`
mirrors `U256::saturating_add`.  `Int.tdiv` is Rust's `i64` division
(truncation toward zero, via `checked_div` whose divisor-zero failure is
the first `.error` branch). -/

structure TWAPData where
  price : Nat
  timestamp : Nat
  samples : Nat
deriving DecidableEq

def MIN_TWAP_SAMPLES : Nat := 3

def MIN_TWAP_CARDINALITY : Nat := 50

def MAX_TWAP_GAPS : Nat := 2

def MAX_TICK_MOVEMENT : Nat := 1000

def validate_tick_movement (tick_diff : Int) : Bool :=
  if MAX_TICK_MOVEMENT < tick_diff.natAbs then false else true

/-- `TWAPManager::validate_observations`: at least `MIN_TWAP_SAMPLES`
initialised observations, and at most `MAX_TWAP_GAPS` adjacent windows
containing an uninitialised observation (`windows(2)` is `zip` with the
tail). -/
def validate_observations (initialized : List Bool) : Bool :=
  let valid_count := (initialized.filter (fun x => x)).length
  if valid_count < MIN_TWAP_SAMPLES then false
  else
    let max_gap := (initialized.zip initialized.tail).countP (fun w => !w.1 || !w.2)
    if MAX_TWAP_GAPS < max_gap then false
    else true

def get_twap_observation_times : List Nat := [1800, 1500, 1200, 900, 600, 300, 0]

def u32_wrapping_sub (a b : Nat) : Nat := (a + 2^32 - b) % 2^32

def u256_saturating_add (a b : Nat) : Nat := min (a + b) (2^256 - 1)

/-- The per-interval loop of `TWAPManager::calculate_twap` over the index
list `0 .. ticks.len()-1`, carrying `(twap_sum, valid_samples)`: skip
intervals with an uninitialised endpoint, skip intervals failing
`validate_tick_movement`, fail on a zero time delta (`checked_div`),
convert the mean tick to a price, invert it when the target token is not
`token0` (failing on a zero price), and accumulate. -/
def twap_loop (token0 token : Nat) (ticks : List Int) (initialized : List Bool)
    (seconds_ago : List Nat) (tickToPrice : Int → Nat)
    (idxs : List Nat) (twap_sum valid_samples : Nat) : Except String (Nat × Nat) :=
  match idxs with
  | [] => .ok (twap_sum, valid_samples)
  | i :: rest =>
    if !(initialized.getD i false) || !(initialized.getD (i+1) false) then
      twap_loop token0 token ticks initialized seconds_ago tickToPrice rest
        twap_sum valid_samples
    else
      let tick_diff := ticks.getD (i+1) 0 - ticks.getD i 0
      let time_diff := u32_wrapping_sub (seconds_ago.getD (i+1) 0) (seconds_ago.getD i 0)
      if !(validate_tick_movement tick_diff) then
        twap_loop token0 token ticks initialized seconds_ago tickToPrice rest
          twap_sum valid_samples
      else if time_diff = 0 then .error ("TWAP calculation error")
      else
        let tick_avg := Int.tdiv tick_diff (time_diff : Int)
        let price := tickToPrice tick_avg
        if token = token0 then
          twap_loop token0 token ticks initialized seconds_ago tickToPrice rest
            (u256_saturating_add twap_sum price) (valid_samples + 1)
        else if price = 0 then .error ("Price inversion overflow")
        else
          twap_loop token0 token ticks initialized seconds_ago tickToPrice rest
            (u256_saturating_add twap_sum (2^192 / price)) (valid_samples + 1)

def calculate_twap (token0 token : Nat) (ticks : List Int) (initialized : List Bool)
    (seconds_ago : List Nat) (now : Nat) (tickToPrice : Int → Nat) :
    Except String (Option TWAPData) :=
  match twap_loop token0 token ticks initialized seconds_ago tickToPrice
      (List.range (ticks.length - 1)) 0 0 with
  | .error e => .error e
  | .ok (twap_sum, valid_samples) =>
    if valid_samples < MIN_TWAP_SAMPLES then .ok none
    else .ok (some ⟨twap_sum / valid_samples, now, valid_samples⟩)

def get_v3_twap (sqrt_price_x96 token0 token1 token cardinality : Nat)
    (ticks : List Int) (initialized : List Bool) (now : Nat)
    (tickToPrice : Int → Nat) : Except String (Option TWAPData) :=
  if sqrt_price_x96 = 0 then .ok none
  else if token ≠ token0 ∧ token ≠ token1 then .error ("Token not found in pool")
  else if !(validate_observations initialized) then .ok none
  else if cardinality < MIN_TWAP_CARDINALITY then .ok none
  else calculate_twap token0 token ticks initialized get_twap_observation_times
    now tickToPrice

/-- Number of initialised observations. -/
def initialized_count (initialized : List Bool) : Nat :=
  (initialized.filter (fun x => x)).length

/-- Number of adjacent observation windows containing a gap. -/
def gap_count (initialized : List Bool) : Nat :=
  (initialized.zip initialized.tail).countP (fun w => !w.1 || !w.2)

/-- Number of look-back intervals that survive the loop's filters: both
endpoints initialised and tick delta within `MAX_TICK_MOVEMENT`. -/
def valid_interval_count (ticks : List Int) (initialized : List Bool) : Nat :=
  (List.range (ticks.length - 1)).countP (fun i =>
    (initialized.getD i false) && (initialized.getD (i+1) false) &&
      validate_tick_movement (ticks.getD (i+1) 0 - ticks.getD i 0))

/-- Loop invariant: when every visited interval has a non-zero time delta
and the abstract tick-to-price conversion is positive, the loop never
fails and counts exactly the surviving intervals. -/
theorem twap_loop_ok (token0 token : Nat) (ticks : List Int) (initialized : List Bool)
    (seconds_ago : List Nat) (tickToPrice : Int → Nat)
    (hpos : ∀ t, 0 < tickToPrice t) :
    ∀ (idxs : List Nat),
      (∀ i ∈ idxs,
        u32_wrapping_sub (seconds_ago.getD (i+1) 0) (seconds_ago.getD i 0) ≠ 0) →
      ∀ twap_sum valid_samples, ∃ s,
        twap_loop token0 token ticks initialized seconds_ago tickToPrice idxs
            twap_sum valid_samples =
          .ok (s, valid_samples + idxs.countP (fun i =>
            (initialized.getD i false) && (initialized.getD (i+1) false) &&
              validate_tick_movement (ticks.getD (i+1) 0 - ticks.getD i 0))) := by
  intro idxs
  induction idxs with
  | nil =>
    intro _ twap_sum valid_samples
    exact ⟨twap_sum, by rw [twap_loop, List.countP_nil, Nat.add_zero]⟩
  | cons i rest ih =>
    intro hdiff twap_sum valid_samples
    have hd : u32_wrapping_sub (seconds_ago.getD (i+1) 0) (seconds_ago.getD i 0) ≠ 0 :=
      hdiff i (List.mem_cons_self _ _)
    have hrest : ∀ j ∈ rest,
        u32_wrapping_sub (seconds_ago.getD (j+1) 0) (seconds_ago.getD j 0) ≠ 0 :=
      fun j hj => hdiff j (List.mem_cons_of_mem _ hj)
    cases ha : initialized.getD i false with
    | false =>
      obtain ⟨s, hs⟩ := ih hrest twap_sum valid_samples
      refine ⟨s, ?_⟩
      rw [twap_loop]
      rw [if_pos (show (!(initialized.getD i false) ||
          !(initialized.getD (i+1) false)) = true by rw [ha]; rfl), hs]
      rw [List.countP_cons]
      rw [show (initialized.getD i false && initialized.getD (i+1) false &&
          validate_tick_movement (ticks.getD (i+1) 0 - ticks.getD i 0)) = false
        by rw [ha]; rfl]
      rw [show (if (false : Bool) = true then 1 else 0) = 0 from rfl, Nat.add_zero]
    | true =>
      cases hb : initialized.getD (i+1) false with
      | false =>
        obtain ⟨s, hs⟩ := ih hrest twap_sum valid_samples
        refine ⟨s, ?_⟩
        rw [twap_loop]
        rw [if_pos (show (!(initialized.getD i false) ||
            !(initialized.getD (i+1) false)) = true by rw [ha, hb]; rfl), hs]
        rw [List.countP_cons]
        rw [show (initialized.getD i false && initialized.getD (i+1) false &&
            validate_tick_movement (ticks.getD (i+1) 0 - ticks.getD i 0)) = false
          by rw [ha, hb]; rfl]
        rw [show (if (false : Bool) = true then 1 else 0) = 0 from rfl, Nat.add_zero]
      | true =>
        cases hc : validate_tick_movement (ticks.getD (i+1) 0 - ticks.getD i 0) with
        | false =>
          obtain ⟨s, hs⟩ := ih hrest twap_sum valid_samples
          refine ⟨s, ?_⟩
          rw [twap_loop]
          rw [if_neg (show ¬((!(initialized.getD i false) ||
              !(initialized.getD (i+1) false)) = true) by rw [ha, hb]; decide)]
          rw [if_pos (show (!(validate_tick_movement
              (ticks.getD (i+1) 0 - ticks.getD i 0))) = true by rw [hc]; rfl), hs]
          rw [List.countP_cons]
          rw [show (initialized.getD i false && initialized.getD (i+1) false &&
              validate_tick_movement (ticks.getD (i+1) 0 - ticks.getD i 0)) = false
            by rw [ha, hb, hc]; rfl]
          rw [show (if (false : Bool) = true then 1 else 0) = 0 from rfl, Nat.add_zero]
        | true =>
          have hstep : (initialized.getD i false && initialized.getD (i+1) false &&
              validate_tick_movement (ticks.getD (i+1) 0 - ticks.getD i 0)) = true := by
            rw [ha, hb, hc]; rfl
          by_cases htok : token = token0
          · obtain ⟨s, hs⟩ := ih hrest
              (u256_saturating_add twap_sum
                (tickToPrice (Int.tdiv (ticks.getD (i+1) 0 - ticks.getD i 0)
                  ((u32_wrapping_sub (seconds_ago.getD (i+1) 0)
                    (seconds_ago.getD i 0) : Nat) : Int))))
              (valid_samples + 1)
            refine ⟨s, ?_⟩
            rw [twap_loop]
            rw [if_neg (show ¬((!(initialized.getD i false) ||
                !(initialized.getD (i+1) false)) = true) by rw [ha, hb]; decide)]
            rw [if_neg (show ¬((!(validate_tick_movement
                (ticks.getD (i+1) 0 - ticks.getD i 0))) = true) by rw [hc]; decide)]
            rw [if_neg hd, if_pos htok, hs]
            rw [List.countP_cons]
            rw [hstep]
            rw [show (if (true : Bool) = true then 1 else 0) = 1 from rfl]
            rw [Nat.add_assoc, Nat.add_comm 1]
          · have hp : tickToPrice (Int.tdiv (ticks.getD (i+1) 0 - ticks.getD i 0)
                ((u32_wrapping_sub (seconds_ago.getD (i+1) 0)
                  (seconds_ago.getD i 0) : Nat) : Int)) ≠ 0 := by
              have := hpos (Int.tdiv (ticks.getD (i+1) 0 - ticks.getD i 0)
                ((u32_wrapping_sub (seconds_ago.getD (i+1) 0)
                  (seconds_ago.getD i 0) : Nat) : Int))
              omega
            obtain ⟨s, hs⟩ := ih hrest
              (u256_saturating_add twap_sum
                (2^192 / tickToPrice (Int.tdiv (ticks.getD (i+1) 0 - ticks.getD i 0)
                  ((u32_wrapping_sub (seconds_ago.getD (i+1) 0)
                    (seconds_ago.getD i 0) : Nat) : Int))))
              (valid_samples + 1)
            refine ⟨s, ?_⟩
            rw [twap_loop]
            rw [if_neg (show ¬((!(initialized.getD i false) ||
                !(initialized.getD (i+1) false)) = true) by rw [ha, hb]; decide)]
            rw [if_neg (show ¬((!(validate_tick_movement
                (ticks.getD (i+1) 0 - ticks.getD i 0))) = true) by rw [hc]; decide)]
            rw [if_neg hd, if_neg htok, if_neg hp, hs]
            rw [List.countP_cons]
            rw [hstep]
            rw [show (if (true : Bool) = true then 1 else 0) = 1 from rfl]
            rw [Nat.add_assoc, Nat.add_comm 1]

/-- A passing observation validation bounds the initialised count from
below and the gap count from above. -/
theorem validate_observations_true (initialized : List Bool)
    (h : validate_observations initialized = true) :
    3 ≤ initialized_count initialized ∧ gap_count initialized ≤ 2 := by
  simp only [validate_observations] at h
  split at h
  · exact Bool.noConfusion h
  · split at h
    · exact Bool.noConfusion h
    · rename_i h1 h2
      unfold initialized_count gap_count
      unfold MIN_TWAP_SAMPLES at h1
      unfold MAX_TWAP_GAPS at h2
      omega

/-- `calculate_twap` over the code's 7 observation times returns no value
whenever fewer than 3 intervals survive the per-interval filters. -/
theorem calculate_twap_none (token0 token : Nat) (ticks : List Int)
    (initialized : List Bool) (now : Nat) (tickToPrice : Int → Nat)
    (hlen : ticks.length = 7) (hpos : ∀ t, 0 < tickToPrice t)
    (hcount : valid_interval_count ticks initialized < 3) :
    calculate_twap token0 token ticks initialized get_twap_observation_times now
      tickToPrice = .ok none := by
  have hdiff : ∀ i ∈ List.range (ticks.length - 1),
      u32_wrapping_sub (get_twap_observation_times.getD (i+1) 0)
        (get_twap_observation_times.getD i 0) ≠ 0 := by
    rw [hlen]; decide
  obtain ⟨s, hs⟩ := twap_loop_ok token0 token ticks initialized
    get_twap_observation_times tickToPrice hpos (List.range (ticks.length - 1))
    hdiff 0 0
  unfold calculate_twap
  rw [hs]
  dsimp only
  unfold valid_interval_count at hcount
  rw [if_pos (show 0 + (List.range (ticks.length - 1)).countP (fun i =>
      (initialized.getD i false) && (initialized.getD (i+1) false) &&
        validate_tick_movement (ticks.getD (i+1) 0 - ticks.getD i 0)) <
      MIN_TWAP_SAMPLES by unfold MIN_TWAP_SAMPLES; omega)]

/-- Claim C5: `get_v3_twap` returns no value (`Ok(None)`) whenever fewer
than 3 of the 7 observations are initialised, or the gap count exceeds 2,
or the observation cardinality is below 50, or fewer than 3 valid
per-interval samples survive the tick-delta filter.  (The target token
must be one of the pool's tokens, and the abstract tick-to-price
conversion is positive, as `1.0001^tick * 2^96` is in the source.) -/
theorem get_v3_twap_rejects (sqrt_price_x96 token0 token1 token cardinality : Nat)
    (ticks : List Int) (initialized : List Bool) (now : Nat)
    (tickToPrice : Int → Nat)
    (hlen : ticks.length = 7)
    (htok : token = token0 ∨ token = token1)
    (hpos : ∀ t, 0 < tickToPrice t)
    (hrej : initialized_count initialized < 3 ∨ 2 < gap_count initialized ∨
      cardinality < 50 ∨ valid_interval_count ticks initialized < 3) :
    get_v3_twap sqrt_price_x96 token0 token1 token cardinality ticks initialized
      now tickToPrice = .ok none := by
  unfold get_v3_twap
  by_cases hsq : sqrt_price_x96 = 0
  · rw [if_pos hsq]
  · rw [if_neg hsq]
    rw [if_neg (show ¬(token ≠ token0 ∧ token ≠ token1) from fun hcontra => by
      rcases htok with h | h
      exacts [hcontra.1 h, hcontra.2 h])]
    by_cases hobs : validate_observations initialized = true
    · rw [if_neg (show ¬((!validate_observations initialized) = true) by
        rw [hobs]; decide)]
      by_cases hcard : cardinality < MIN_TWAP_CARDINALITY
      · rw [if_pos hcard]
      · rw [if_neg hcard]
        have hspec := validate_observations_true initialized hobs
        have h4 : valid_interval_count ticks initialized < 3 := by
          rcases hrej with h | h | h | h
          · omega
          · omega
          · exfalso
            unfold MIN_TWAP_CARDINALITY at hcard
            omega
          · exact h
        exact calculate_twap_none token0 token ticks initialized now tickToPrice
          hlen hpos h4
    · have hobs' : validate_observations initialized = false := by
        revert hobs
        cases validate_observations initialized <;> simp
      rw [if_pos (show (!validate_observations initialized) = true by
        rw [hobs']; rfl)]

/-- Claim C5 (witness): a pool whose 7 observations are all uninitialised
is rejected. -/
theorem get_v3_twap_rejects_witness :
    get_v3_twap 1 0 1 0 50 (List.replicate 7 0) (List.replicate 7 false) 0
      (fun _ => 1) = .ok none :=
  get_v3_twap_rejects 1 0 1 0 50 (List.replicate 7 0) (List.replicate 7 false) 0
    (fun _ => 1) (by decide) (Or.inl rfl) (fun _ => Nat.one_pos)
    (Or.inl (by decide))
